import Mathlib

/-!
Verification of the change-detection and alert-deduplication core of the
Secret-Alerts repository, embedded shallowly in Lean 4.

DataFrames are modelled as lists of rows; the pandas relational operations
used by the source (boolean-mask filtering, left merge with indicator,
inner merge + isin, drop_duplicates) are embedded as the corresponding
list operations on rows, in row order.
-/

namespace SecretAlerts

/-- One row of the circuit-breaker feed (`Symbol`, `Security Name`,
`Trigger Date`, `Trigger Time`, `End Date`, `End Time`); the end columns
are nullable, modelled as `Option`. -/
structure Record where
  symbol : String
  securityName : String
  triggerDate : String
  triggerTime : String
  endDate : Option String
  endTime : Option String
deriving DecidableEq, Repr

/-- `src/testing/time_travel_tester.py` lines 76-77:
`UniqueKey = Symbol + "_" + Trigger Date + "_" + Trigger Time`. -/
def uniqueKey (r : Record) : String :=
  r.symbol ++ "_" ++ r.triggerDate ++ "_" ++ r.triggerTime

/-- The new-alert half of `TimeTravelTester._detect_changes`
(`time_travel_tester.py` lines 86-91): if `before_state` is empty all of
`after_state` is new; otherwise the left merge on `UniqueKey` with
`indicator=True` marks exactly the rows of `after_state` whose key does not
occur in `before_state` as `left_only`. -/
def detect_new (before_state after_state : List Record) : List Record :=
  if before_state.isEmpty then after_state
  else after_state.filter
    (fun r => !(before_state.any (fun b => uniqueKey b == uniqueKey r)))

/-- The ended-alert half of `TimeTravelTester._detect_changes`
(`time_travel_tester.py` lines 93-102): `previously_open` are the
`before_state` rows with null `End Time`, `currently_closed` the
`after_state` rows with non-null `End Time`; the inner merge followed by
`isin` keeps the rows of `previously_open` whose key occurs in
`currently_closed`.  The source's emptiness guard on the two intermediate
frames is equivalent to the filter below producing `[]`. -/
def detect_ended (before_state after_state : List Record) : List Record :=
  if before_state.isEmpty then []
  else
    (before_state.filter (fun r => r.endTime.isNone)).filter
      (fun r => (after_state.filter (fun c => c.endTime.isSome)).any
        (fun c => uniqueKey c == uniqueKey r))

/-- `TimeTravelTester._detect_changes`: returns `(new_alerts, ended_alerts)`. -/
def detect_changes (before_state after_state : List Record) :
    List Record × List Record :=
  (detect_new before_state after_state, detect_ended before_state after_state)

/-- Concrete scenario 2 of the spec, open version: TSLT triggered
2025-08-12 09:30:00, end columns still null. -/
def tsltOpen : Record :=
  ⟨"TSLT", "TSLT ETF", "2025-08-12", "09:30:00", none, none⟩

/-- Concrete scenario 2 of the spec, closed version of the same record:
both end columns populated. -/
def tsltClosed : Record :=
  ⟨"TSLT", "TSLT ETF", "2025-08-12", "09:30:00", some "2025-08-12",
    some "09:35:00"⟩

/-- Partial-write version of the same record: `End Time` populated while
`End Date` is still null. -/
def tsltPartial : Record :=
  ⟨"TSLT", "TSLT ETF", "2025-08-12", "09:30:00", none, some "09:35:00"⟩

/-- A second, independently keyed open record. -/
def nvdxOpen : Record :=
  ⟨"NVDX", "NVDX ETF", "2025-08-12", "09:31:00", none, none⟩

/-- Closed record sharing the identity key of `tsltOpen`, for the
duplicate-key snapshot. -/
def xcbOpen : Record :=
  ⟨"XCB", "XCB CORP", "2025-08-12", "10:00:00", none, none⟩

/-- Closed record with the same identity key as `xcbOpen`. -/
def xcbClosed : Record :=
  ⟨"XCB", "XCB CORP", "2025-08-12", "10:00:00", some "2025-08-12",
    some "10:05:00"⟩

/-- A record whose symbol itself contains the key delimiter. -/
def keyCollideA : Record :=
  ⟨"A_B", "DELIMITED SYMBOL", "C", "T", none, none⟩

/-- A record distinct from `keyCollideA` in symbol and trigger date whose
raw underscore-joined key nevertheless coincides with `keyCollideA`. -/
def keyCollideB : Record :=
  ⟨"A", "PLAIN SYMBOL", "B_C", "T", none, none⟩

/-- Python `s.startswith(pat)`: `pat` is a prefix of the character
sequence of `s`. -/
def str_starts_with (s pat : String) : Bool :=
  pat.data.isPrefixOf s.data

/-- Python `s.endswith(pat)`: `pat` is a suffix of the character sequence
of `s`. -/
def str_ends_with (s pat : String) : Bool :=
  pat.data.isSuffixOf s.data

/-- Python `s[:-n]` (for `0 < n ≤ len(s)`): all but the last `n`
characters. -/
def str_drop_right (s : String) (n : Nat) : String :=
  ⟨s.data.take (s.data.length - n)⟩

/-- Python `len(s)`: the number of characters. -/
def str_length (s : String) : Nat :=
  s.data.length

/-- Python `s.upper()` on ASCII ticker text. -/
def str_to_upper (s : String) : String :=
  ⟨s.data.map Char.toUpper⟩

/-- A second detection of the record keyed like `tsltOpen` (same symbol,
trigger date and trigger time; different security-name text). -/
def tsltOpenB : Record :=
  ⟨"TSLT", "TSLT ETF SECOND PULL", "2025-08-12", "09:30:00", none, none⟩

/-- Exact-match row count, the counting rule of the amended C7. -/
def exact_match_count (symbol : String) (full_df : List Record) : Nat :=
  (full_df.filter (fun r => r.symbol == symbol)).length

/-- The batch-merge identity used by `SmartAlertBatcher._process_batch`
(`drop_duplicates(subset=[Symbol, Trigger Date, Trigger Time])`). -/
def keyTriple (r : Record) : String × String × String :=
  (r.symbol, r.triggerDate, r.triggerTime)

/-- One queued Change: the `new_breakers` and `ended_breakers` frames
stored by `SmartAlertBatcher.queue_alert` for one bucket entry. -/
structure Change where
  new_breakers : List Record
  ended_breakers : List Record
deriving DecidableEq, Repr

/-- `pd.concat([df for df in dfs if not df.empty], ignore_index=True)`
as used in `_process_batch` (`alert_batcher.py` lines 145-146):
concatenates the non-empty frames in order; `pd.concat` raises
`ValueError` when no frame is left, modelled as `none`. -/
def concat_nonempty (dfs : List (List Record)) : Option (List Record) :=
  let nonempty := dfs.filter (fun d => !d.isEmpty)
  if nonempty.isEmpty then none else some nonempty.flatten

/-- `DataFrame.drop_duplicates(subset=[Symbol, Trigger Date, Trigger Time])`
with the default `keep="first"`: a row is kept iff no earlier row has the
same key triple. -/
def drop_duplicates_by_key (seen : List (String × String × String)) :
    List Record → List Record
  | [] => []
  | r :: rest =>
      if keyTriple r ∈ seen then drop_duplicates_by_key seen rest
      else r :: drop_duplicates_by_key (keyTriple r :: seen) rest

/-- `SmartAlertBatcher._process_batch` (`alert_batcher.py` lines 130-164)
applied to the Changes accumulated in one bucket, in arrival order: with
no pending alerts nothing is sent; otherwise the new frames and the ended
frames are each concatenated (a `ValueError` from concatenating zero
non-empty frames aborts the callback, so nothing is flushed, modelled as
`none`) and de-duplicated by key triple; the merged pair is handed to the
emission path.  A successful concatenation joins at least one non-empty
frame, so the final non-emptiness guard before sending always passes. -/
def process_batch (alerts_in_batch : List Change) :
    Option (List Record × List Record) :=
  if alerts_in_batch.isEmpty then none
  else
    match concat_nonempty (alerts_in_batch.map Change.new_breakers),
        concat_nonempty (alerts_in_batch.map Change.ended_breakers) with
    | some all_new, some all_ended =>
        some (drop_duplicates_by_key [] all_new,
          drop_duplicates_by_key [] all_ended)
    | _, _ => none

/-- `FrequencyAnalyzer.get_symbol_frequency` (`alert_intelligence.py`
lines 16-23): with a missing or empty dataset return 1, otherwise the
number of rows whose `Symbol` equals the given symbol (exact string
equality), floored at 1. -/
def get_symbol_frequency (symbol : String) (full_df : List Record) : Nat :=
  if full_df.isEmpty then 1
  else max (full_df.filter (fun r => r.symbol == symbol)).length 1

/-- The spec wording for C7: count of rows matching the symbol
case-insensitively. -/
def case_insensitive_count (symbol : String) (full_df : List Record) : Nat :=
  (full_df.filter (fun r => str_to_upper r.symbol == str_to_upper symbol)).length

/-- `PriorityClassifier.classify_priority` (`alert_intelligence.py` lines
125-144); `vip_symbols` is the constructor-uppercased VIP list. -/
def classify_priority (vip_symbols : List String) (symbol : String)
    (frequency : Nat) (is_double_mint : Bool) : String :=
  if str_to_upper symbol ∈ vip_symbols.map str_to_upper then "VIP"
  else if frequency ≥ 15 then "HIGH"
  else if is_double_mint ∧ frequency ≥ 5 then "HIGH"
  else "STANDARD"

/-- Rank of a priority string under the ordering STANDARD < HIGH < VIP. -/
def priorityRank (p : String) : Nat :=
  if p = "VIP" then 2 else if p = "HIGH" then 1 else 0

/-- `DoubleMintDetector.extract_underlying_asset` (`alert_intelligence.py`
lines 43-90): the ordered chain of `startswith` rules, then the generic
branch for symbols of length at least 4 (`symbol[:-1]`, stripping one
further trailing `P`/`U`/`T`/`Z`), else the symbol itself. -/
def extract_underlying_asset (symbol : String) : String :=
  if str_starts_with symbol "TSL" then "TSLA"
  else if str_starts_with symbol "NVD" then "NVDA"
  else if str_starts_with symbol "MST" then "MSTR"
  else if str_starts_with symbol "ETU" || str_starts_with symbol "ETQ"
      || str_starts_with symbol "ETHU" then "ETH"
  else if str_starts_with symbol "BTC" || str_starts_with symbol "BITX" then "BTC"
  else if str_starts_with symbol "ROB" then "HOOD"
  else if str_starts_with symbol "QBT" || str_starts_with symbol "QUB" then "QUANTUM"
  else if str_starts_with symbol "ARM" then "ARM"
  else if str_starts_with symbol "RBL" then "RBLX"
  else if str_starts_with symbol "PLT" then "PLTR"
  else if str_starts_with symbol "DJT" then "DJT"
  else if str_starts_with symbol "UVI" || str_starts_with symbol "SVIX" then "VIX"
  else if str_starts_with symbol "CWV" || str_starts_with symbol "CRWU" then "CRWV"
  else if str_starts_with symbol "SMU" || str_starts_with symbol "SMUP" then "SMR"
  else if str_length symbol ≥ 4 then
    let base := str_drop_right symbol 1
    if str_ends_with base "P" || str_ends_with base "U"
        || str_ends_with base "T" || str_ends_with base "Z" then
      str_drop_right base 1
    else base
  else symbol

/-- The generic fallback of `extract_underlying_asset` as the amended C9
describes it: for a symbol of length at least 4 the final character is
always stripped, and one more character is stripped when the remaining
string ends in `P`, `U`, `T` or `Z`; shorter symbols are unchanged. -/
def generic_fallback (symbol : String) : String :=
  if str_length symbol ≥ 4 then
    if str_ends_with (str_drop_right symbol 1) "P"
        || str_ends_with (str_drop_right symbol 1) "U"
        || str_ends_with (str_drop_right symbol 1) "T"
        || str_ends_with (str_drop_right symbol 1) "Z" then
      str_drop_right (str_drop_right symbol 1) 1
    else str_drop_right symbol 1
  else symbol

end SecretAlerts

namespace SecretAlerts

/-- C1: at the spec's concrete scenario 2 (previous holds the open TSLT
record, current holds the same record closed), `_detect_changes` returns
the **previous** open row — whose end fields are absent — as `ended`, not
the current row carrying `end_date`/`end_time` as the claim states. -/
theorem detect_changes_scenario2_previous_version :
    detect_changes [tsltOpen] [tsltClosed] = ([], [tsltOpen]) ∧
      tsltOpen.endDate = none ∧ tsltOpen.endTime = none ∧
      tsltClosed.endTime = some "09:35:00" := by
  refine ⟨by decide, rfl, rfl, rfl⟩

/-- C2 counterexample: the current snapshot's only record has `End Time`
present while `End Date` is absent, yet the diff still classifies the
record as ended — the closed-check consults only `End Time`. -/
theorem detect_ended_partial_write_counterexample :
    tsltPartial.endDate = none ∧ tsltPartial.endTime = some "09:35:00" ∧
      detect_changes [tsltOpen] [tsltPartial] = ([], [tsltOpen]) := by
  refine ⟨rfl, rfl, by decide⟩

/-- C2 amended: the diff decides closedness from `end_time` alone; any
previously-open record whose key reappears in the current snapshot with
`end_time` present is classified as `ended`, even when `end_date` is
absent (`end_date` is never consulted). -/
theorem detect_ended_ignores_end_date (before_state after_state : List Record)
    (r c : Record) (hb : before_state ≠ []) (hr : r ∈ before_state)
    (hro : r.endTime = none) (hc : c ∈ after_state)
    (hck : uniqueKey c = uniqueKey r) (hcc : c.endTime.isSome) :
    r ∈ detect_ended before_state after_state := by
  unfold detect_ended
  rw [if_neg (by simpa [List.isEmpty_iff] using hb)]
  refine List.mem_filter.mpr ⟨List.mem_filter.mpr ⟨hr, by simp [hro]⟩, ?_⟩
  refine List.any_eq_true.mpr ⟨c, List.mem_filter.mpr ⟨hc, by simpa using hcc⟩, ?_⟩
  simpa using hck

/-- Witness for `detect_ended_ignores_end_date` at the concrete
partial-write input. -/
theorem detect_ended_ignores_end_date_witness :
    tsltOpen ∈ detect_ended [tsltOpen] [tsltPartial] :=
  detect_ended_ignores_end_date [tsltOpen] [tsltPartial] tsltOpen tsltPartial
    (by decide) (by decide) rfl (by decide) rfl rfl

/-- C3: diffing any current snapshot against an empty previous snapshot
returns all current records as `new` and an empty `ended` list. -/
theorem detect_changes_empty_baseline (after_state : List Record) :
    detect_changes [] after_state = (after_state, []) := by
  simp [detect_changes, detect_new, detect_ended]

/-- C4 counterexample: a snapshot whose two records both have a consistent
open/closed state (end fields both absent, resp. both present) but share
one identity key; diffing it against itself reports the open duplicate as
`ended`, so the result is not `([], [])`. -/
theorem detect_changes_self_duplicate_key_counterexample :
    List.all [xcbOpen, xcbClosed]
        (fun r => r.endDate.isNone == r.endTime.isNone) = true ∧
      detect_changes [xcbOpen, xcbClosed] [xcbOpen, xcbClosed] ≠ ([], []) := by
  refine ⟨rfl, by decide⟩

/-- C4 amended: for every snapshot whose records have a consistent
open/closed state and pairwise-distinct identity keys, diffing the
snapshot against itself yields no new and no ended records. -/
theorem detect_changes_self_empty (S : List Record)
    (hconsist : ∀ r ∈ S, r.endDate.isNone = r.endTime.isNone)
    (hkeys : S.Pairwise (fun a b => uniqueKey a ≠ uniqueKey b)) :
    detect_changes S S = ([], []) := by
  rcases S with _ | ⟨s, S⟩
  · simp [detect_changes, detect_new, detect_ended]
  · refine Prod.ext ?_ ?_
    · simp only [detect_changes, detect_new, List.isEmpty_cons, if_neg Bool.false_ne_true]
      refine List.filter_eq_nil_iff.mpr ?_
      intro r hr
      have hself : ((s :: S).any fun b => uniqueKey b == uniqueKey r) = true :=
        List.any_eq_true.mpr ⟨r, hr, by simp⟩
      simp [hself]
    · simp only [detect_changes, detect_ended, List.isEmpty_cons, if_neg Bool.false_ne_true]
      refine List.filter_eq_nil_iff.mpr ?_
      intro r hr hany
      rcases List.mem_filter.mp hr with ⟨hrS, hropen⟩
      rcases List.any_eq_true.mp hany with ⟨c, hc, hkey⟩
      rcases List.mem_filter.mp hc with ⟨hcS, hcclosed⟩
      have hne : r ≠ c := by
        intro h
        have h1 : c.endTime = none := Option.isNone_iff_eq_none.mp (h ▸ hropen)
        rw [h1] at hcclosed
        simp at hcclosed
      have hsymm : Symmetric (fun a b : Record => uniqueKey a ≠ uniqueKey b) :=
        fun a b h => fun he => h he.symm
      have hnek := hkeys.forall hsymm hrS hcS hne
      have hk : uniqueKey c = uniqueKey r := by simpa using hkey
      exact hnek hk.symm

/-- Witness for `detect_changes_self_empty` on a concrete two-record
snapshot with distinct keys. -/
theorem detect_changes_self_empty_witness :
    detect_changes [tsltOpen, nvdxOpen] [tsltOpen, nvdxOpen] = ([], []) :=
  detect_changes_self_empty [tsltOpen, nvdxOpen] (by decide) (by decide)

/-- C10: within one diff result, the `new` list and the `ended` list are
disjoint by identity key: no key occurs in both. -/
theorem detect_changes_new_ended_disjoint
    (before_state after_state : List Record) (r e : Record)
    (hr : r ∈ detect_new before_state after_state)
    (he : e ∈ detect_ended before_state after_state) :
    uniqueKey r ≠ uniqueKey e := by
  unfold detect_new at hr
  unfold detect_ended at he
  by_cases hb : before_state.isEmpty
  · rw [if_pos hb] at he
    exact absurd he (List.not_mem_nil e)
  · rw [if_neg hb] at hr he
    rcases List.mem_filter.mp hr with ⟨hra, hrnot⟩
    rcases List.mem_filter.mp he with ⟨hepo, _⟩
    rcases List.mem_filter.mp hepo with ⟨heb, _⟩
    intro h
    have hself : (before_state.any fun b => uniqueKey b == uniqueKey r) = true :=
      List.any_eq_true.mpr ⟨e, heb, by simp [h]⟩
    simp [hself] at hrnot

/-- Witness for `detect_changes_new_ended_disjoint` at a concrete diff
with one new and one ended record. -/
theorem detect_changes_new_ended_disjoint_witness :
    uniqueKey nvdxOpen ≠ uniqueKey tsltOpen :=
  detect_changes_new_ended_disjoint [tsltOpen] [nvdxOpen, tsltClosed]
    nvdxOpen tsltOpen (by decide) (by decide)

/-- C5: two Changes carrying same-key `new` records but (as in the common
case) empty `ended` frames are queued into one bucket; `_process_batch`
then concatenates zero non-empty ended frames, which raises, so no batch
is flushed at all — instead of a flushed batch containing the key once. -/
theorem process_batch_all_ended_empty_crash :
    keyTriple tsltOpenB = keyTriple tsltOpen ∧
      process_batch [Change.mk [tsltOpen] [], Change.mk [tsltOpenB] []] =
        none :=
  ⟨rfl, by decide⟩

/-- C7 counterexample: querying the lowercase form of a symbol that occurs
twice in the dataset returns 1, not the case-insensitive count 2. -/
theorem get_symbol_frequency_case_counterexample :
    get_symbol_frequency "tslt" [tsltOpen, tsltOpenB] = 1 ∧
      case_insensitive_count "tslt" [tsltOpen, tsltOpenB] = 2 := by
  constructor <;> decide

/-- C7 amended: the frequency function returns the count of rows whose
`Symbol` equals the given symbol exactly (case-sensitively), floored at 1;
in particular the result is always at least 1. -/
theorem get_symbol_frequency_exact (symbol : String) (full_df : List Record) :
    get_symbol_frequency symbol full_df =
        max (exact_match_count symbol full_df) 1 ∧
      1 ≤ get_symbol_frequency symbol full_df := by
  have h : get_symbol_frequency symbol full_df =
      max (exact_match_count symbol full_df) 1 := by
    unfold get_symbol_frequency exact_match_count
    by_cases h : full_df.isEmpty
    · rw [if_pos h, List.isEmpty_iff.mp h]
      simp
    · rw [if_neg h]
  exact ⟨h, by rw [h]; exact Nat.le_max_right _ 1⟩

/-- C8: for a fixed VIP list, symbol and double-mint flag, the priority
returned by `classify_priority` is monotone non-decreasing in the
frequency, under the ordering STANDARD < HIGH < VIP. -/
theorem classify_priority_monotone (vip_symbols : List String)
    (symbol : String) (is_double_mint : Bool) (f1 f2 : Nat) (h : f1 ≤ f2) :
    priorityRank (classify_priority vip_symbols symbol f1 is_double_mint) ≤
      priorityRank (classify_priority vip_symbols symbol f2 is_double_mint) := by
  unfold classify_priority
  by_cases hv : str_to_upper symbol ∈ vip_symbols.map str_to_upper
  · rw [if_pos hv, if_pos hv]
  · rw [if_neg hv, if_neg hv]
    by_cases h15 : f1 ≥ 15
    · rw [if_pos h15, if_pos (le_trans h15 h)]
    · rw [if_neg h15]
      by_cases h25 : f2 ≥ 15
      · rw [if_pos h25]
        by_cases hdm : is_double_mint = true ∧ f1 ≥ 5
        · rw [if_pos hdm]
        · rw [if_neg hdm]
          decide
      · rw [if_neg h25]
        by_cases hdm : is_double_mint = true ∧ f1 ≥ 5
        · rw [if_pos hdm, if_pos ⟨hdm.1, le_trans hdm.2 h⟩]
        · rw [if_neg hdm]
          by_cases hdm2 : is_double_mint = true ∧ f2 ≥ 5
          · rw [if_pos hdm2]
            decide
          · rw [if_neg hdm2]

/-- Witness for `classify_priority_monotone` at concrete frequencies. -/
theorem classify_priority_monotone_witness :
    priorityRank (classify_priority ["TSLA"] "ABCD" 5 true) ≤
      priorityRank (classify_priority ["TSLA"] "ABCD" 20 true) :=
  classify_priority_monotone ["TSLA"] "ABCD" true 5 20 (by decide)

/-- C9 counterexample: "ABCD" matches no explicit rule and its
trailing character `D` is not in the direction/leverage suffix set
`P`/`U`/`T`/`Z`, yet the function still strips it. -/
theorem extract_underlying_asset_counterexample :
    extract_underlying_asset "ABCD" = "ABC" ∧
      ("ABCD" : String) ≠ "ABC" ∧
      ("D" : String) ∉ (["P", "U", "T", "Z"] : List String) := by
  refine ⟨by decide, by decide, by decide⟩

/-- C9 amended: on every symbol matching none of the explicit
`startswith` rules, the function applies the generic fallback: symbols of
length at least 4 always lose their final character, and lose one more
when the remaining string ends in `P`, `U`, `T` or `Z`; shorter symbols
are returned unchanged. -/
theorem extract_underlying_asset_generic (symbol : String)
    (h1 : str_starts_with symbol "TSL" = false)
    (h2 : str_starts_with symbol "NVD" = false)
    (h3 : str_starts_with symbol "MST" = false)
    (h4 : str_starts_with symbol "ETU" = false)
    (h5 : str_starts_with symbol "ETQ" = false)
    (h6 : str_starts_with symbol "ETHU" = false)
    (h7 : str_starts_with symbol "BTC" = false)
    (h8 : str_starts_with symbol "BITX" = false)
    (h9 : str_starts_with symbol "ROB" = false)
    (h10 : str_starts_with symbol "QBT" = false)
    (h11 : str_starts_with symbol "QUB" = false)
    (h12 : str_starts_with symbol "ARM" = false)
    (h13 : str_starts_with symbol "RBL" = false)
    (h14 : str_starts_with symbol "PLT" = false)
    (h15 : str_starts_with symbol "DJT" = false)
    (h16 : str_starts_with symbol "UVI" = false)
    (h17 : str_starts_with symbol "SVIX" = false)
    (h18 : str_starts_with symbol "CWV" = false)
    (h19 : str_starts_with symbol "CRWU" = false)
    (h20 : str_starts_with symbol "SMU" = false)
    (h21 : str_starts_with symbol "SMUP" = false) :
    extract_underlying_asset symbol = generic_fallback symbol := by
  unfold extract_underlying_asset generic_fallback
  simp only [h1, h2, h3, h4, h5, h6, h7, h8, h9, h10, h11, h12, h13, h14,
    h15, h16, h17, h18, h19, h20, h21, Bool.or_self, Bool.or_false,
    Bool.false_or, if_false, Bool.false_eq_true, ite_false]

/-- Witness for `extract_underlying_asset_generic` at a symbol outside
every explicit rule. -/
theorem extract_underlying_asset_generic_witness :
    extract_underlying_asset "XYZW" = generic_fallback "XYZW" :=
  extract_underlying_asset_generic "XYZW" (by decide) (by decide) (by decide)
    (by decide) (by decide) (by decide) (by decide) (by decide) (by decide)
    (by decide) (by decide) (by decide) (by decide) (by decide) (by decide)
    (by decide) (by decide) (by decide) (by decide) (by decide) (by decide)

/-- C6 counterexample: two records differing in symbol and trigger date
whose raw underscore-joined keys coincide, because one symbol contains
the delimiter. -/
theorem uniqueKey_collision_counterexample :
    uniqueKey keyCollideA = uniqueKey keyCollideB ∧
      keyCollideA.symbol ≠ keyCollideB.symbol ∧
      keyCollideA.triggerDate ≠ keyCollideB.triggerDate := by
  refine ⟨by decide, by decide, by decide⟩

/-- Splitting a list at a distinguished element absent from both left
parts is unambiguous. -/
theorem append_cons_inj {α : Type} (c : α) (l1 : List α) :
    ∀ (l2 r1 r2 : List α), c ∉ l1 → c ∉ l2 →
      l1 ++ c :: r1 = l2 ++ c :: r2 → l1 = l2 ∧ r1 = r2 := by
  induction l1 with
  | nil =>
    intro l2 r1 r2 h1 h2 h
    cases l2 with
    | nil => simpa using h
    | cons a t =>
      simp only [List.nil_append, List.cons_append, List.cons.injEq] at h
      exact absurd (by rw [h.1]; exact List.mem_cons_self a t) h2
  | cons a t ih =>
    intro l2 r1 r2 h1 h2 h
    cases l2 with
    | nil =>
      simp only [List.cons_append, List.nil_append, List.cons.injEq] at h
      exact absurd (by rw [← h.1]; exact List.mem_cons_self a t) h1
    | cons b u =>
      simp only [List.cons_append, List.cons.injEq] at h
      have h1t : c ∉ t := fun hm => h1 (List.mem_cons_of_mem a hm)
      have h2u : c ∉ u := fun hm => h2 (List.mem_cons_of_mem b hm)
      rcases ih u r1 r2 h1t h2u h.2 with ⟨hl, hr⟩
      exact ⟨by rw [h.1, hl], hr⟩

/-- C6 amended: on records whose symbol and trigger date contain no
underscore, the key is a faithful identity: two such records have equal
keys exactly when symbol, trigger date and trigger time all agree (so the
key is stable under re-serialization and separates any difference in the
three fields). -/
theorem uniqueKey_inj (r1 r2 : Record)
    (hs1 : ('_' : Char) ∉ r1.symbol.data)
    (hs2 : ('_' : Char) ∉ r2.symbol.data)
    (hd1 : ('_' : Char) ∉ r1.triggerDate.data)
    (hd2 : ('_' : Char) ∉ r2.triggerDate.data) :
    uniqueKey r1 = uniqueKey r2 ↔
      (r1.symbol = r2.symbol ∧ r1.triggerDate = r2.triggerDate ∧
        r1.triggerTime = r2.triggerTime) := by
  constructor
  · intro h
    have hdata := congrArg String.data h
    have hu : ("_" : String).data = ['_'] := rfl
    simp only [uniqueKey, String.data_append, hu, List.append_assoc,
      List.singleton_append] at hdata
    rcases append_cons_inj '_' r1.symbol.data r2.symbol.data _ _ hs1 hs2
        hdata with ⟨hsym, hrest⟩
    rcases append_cons_inj '_' r1.triggerDate.data r2.triggerDate.data _ _
        hd1 hd2 hrest with ⟨hdate, htime⟩
    exact ⟨String.ext hsym, String.ext hdate, String.ext htime⟩
  · rintro ⟨h1, h2, h3⟩
    simp [uniqueKey, h1, h2, h3]

/-- Witness for `uniqueKey_inj` on two concrete underscore-free records. -/
theorem uniqueKey_inj_witness :
    uniqueKey tsltOpen = uniqueKey nvdxOpen ↔
      (tsltOpen.symbol = nvdxOpen.symbol ∧
        tsltOpen.triggerDate = nvdxOpen.triggerDate ∧
        tsltOpen.triggerTime = nvdxOpen.triggerTime) :=
  uniqueKey_inj tsltOpen nvdxOpen (by decide) (by decide) (by decide)
    (by decide)

end SecretAlerts
